import Mathlib

/-!
Shallow embedding of the polling-extraction-aggregation-persistence pipeline of
`src/estrai_meteo.py` (function `estrai_dati_meteo`), together with a small model
of the scheduler loop's exception dispatch.

Modelling conventions:
* Python dicts are association lists with Python's assignment semantics
  (`dictInsert`: update in place if the key exists, else append) and first-match
  lookup (`lookupDict`; keys stay distinct when built from `[]`).
* JSON values reaching `valore` are `JVal`: a float (modelled as `ℚ`), an int
  (`ℤ`), a string, or null (`json.loads` maps JSON null to Python `None`; an
  absent `"valore"` key also yields `None` via `.get`, so both are `jnull`).
* Python float arithmetic is idealised as exact rational arithmetic; `float(s)`
  is `pyFloat` (sign, decimal digits with optional point, optional exponent,
  surrounding whitespace — the `inf`/`nan`/underscore spellings Python also
  accepts cannot arise from `str` of JSON numeric data and are omitted),
  `str(v)` is `pyStr`, and `f"{x:.2f}"` is `formatFixed2` (round half to even).
* `datetime.fromisoformat(...).strftime(...)` is a Python-library call, not repo
  code: the cycle is parameterised over `isoParse : String → Option String`,
  where `none` models the `ValueError` branch of lines 78-84; a missing or null
  `lastUpdateTime` makes `.replace` raise `AttributeError`, caught by the same
  handler, which we model by the `Option String` field.
* The persisted CSV is a `List (List String)` of rows; `csv.writer` quoting does
  not change the field structure and is not modelled.
-/

/-- A Python value as produced by `json.loads` for a sensor's `"valore"` field. -/
inductive JVal where
  | jnum (q : ℚ)
  | jint (n : ℤ)
  | jstr (s : String)
  | jnull
deriving DecidableEq

/-- One element of a station's `"analog"` list.  `tipoSens` is `none` when the
key is absent (membership of `None` in the type-code list is false); `descr` is
`none` when absent (the code defaults it to `""`); `unmis` is `none` when absent
or null (both make the code fall to the `else ""` branch together with `""`). -/
structure Sensore where
  tipoSens : Option ℤ
  descr : Option String
  valore : JVal
  unmis : Option String
deriving DecidableEq

/-- One station record of the API snapshot (`dati_meteo` element). -/
structure Stazione where
  nome : Option String
  lastUpdateTime : Option String
  analog : List Sensore
deriving DecidableEq

/-- `stazioni_interessate` (lines 23-30). -/
def stazioniInteressate : List String :=
  ["Misa", "Pianello di Ostra", "Nevola", "Barbara", "Serra dei Conti", "Arcevia"]

/-- `sensori_interessati_tipoSens` (line 31). -/
def sensoriInteressatiTipoSens : List ℤ := [0, 1, 5, 6, 9, 10, 100]

/-- Python dict assignment `d[k] = v`: overwrite in place, else append. -/
def dictInsert {α : Type} (k : String) (v : α) : List (String × α) → List (String × α)
  | [] => [(k, v)]
  | (k', v') :: rest => if k' = k then (k, v) :: rest else (k', v') :: dictInsert k v rest

/-- Python dict lookup: the (unique) binding of `k`, first match. -/
def lookupDict {α : Type} (l : List (String × α)) (k : String) : Option α :=
  match l with
  | [] => none
  | (k', v) :: rest => if k' = k then some v else lookupDict rest k

/-- Python `str.strip()` (whitespace from both ends). -/
def pyStrip (s : String) : String :=
  String.mk (((s.toList.dropWhile Char.isWhitespace).reverse.dropWhile
    Char.isWhitespace).reverse)

/-- `timestamp_stazione.replace('Z', '+00:00')` (line 80): every `'Z'` becomes
`"+00:00"`. -/
def replaceZ (s : String) : String :=
  String.join (s.toList.map (fun c => if c = 'Z' then "+00:00" else String.singleton c))

/-- `descr_sensore = sensore.get("descr", "").strip()` (line 91). -/
def descrSensore (d : Option String) : String := pyStrip (d.getD "")

/-- `unita_misura = sensore.get("unmis", "").strip() if sensore.get("unmis") else ""`
(line 93): a missing, null or empty (falsy) `unmis` yields `""`. -/
def unitaMisura (u : Option String) : String :=
  match u with
  | some s => if s = "" then "" else pyStrip s
  | none => ""

/-- `chiave_sensore = f"{descr_sensore} ({unita_misura})"` (line 96). -/
def chiaveSensore (descr unita : String) : String := descr ++ " (" ++ unita ++ ")"

/-- The SensorLabel of a raw sensor record. -/
def sensorLabel (s : Sensore) : String :=
  chiaveSensore (descrSensore s.descr) (unitaMisura s.unmis)

/-- `tipoSens in sensori_interessati_tipoSens` (line 95); `None` is in no list
of ints. -/
def tipoOk (t : Option ℤ) : Bool :=
  match t with
  | some n => n ∈ sensoriInteressatiTipoSens
  | none => false

/-- Lexicographic (code-point) comparison of char lists, Python's `<` on `str`. -/
def charListLe : List Char → List Char → Bool
  | [], _ => true
  | _ :: _, [] => false
  | a :: as, b :: bs => if a < b then true else if b < a then false else charListLe as bs

def strLe (a b : String) : Bool := charListLe a.toList b.toList

def insertSorted (s : String) : List String → List String
  | [] => [s]
  | t :: ts => if strLe s t then s :: t :: ts else t :: insertSorted s ts

/-- `sorted(...)` on a list of strings, ascending code-point order. -/
def sortStrings : List String → List String
  | [] => []
  | s :: ss => insertSorted s (sortStrings ss)

/-- The distinct elements of a list: `list(set(...))` up to order (the order is
immaterial, the code sorts the result). -/
def pyDedup : List String → List String
  | [] => []
  | s :: rest => if s ∈ rest then pyDedup rest else s :: pyDedup rest

/-- Digits taken greedily from the front of a char list. -/
def takeDigits : List Char → List ℕ × List Char
  | [] => ([], [])
  | c :: cs =>
    if c.isDigit then
      let p := takeDigits cs
      ((c.toNat - 48) :: p.1, p.2)
    else ([], c :: cs)

def digitsVal (ds : List ℕ) : ℕ := ds.foldl (fun a d => a * 10 + d) 0

/-- Python `float(s)` on the strings this pipeline can produce: optional
surrounding whitespace, optional sign, decimal digits with an optional point
(at least one digit), optional exponent.  `none` models `ValueError`. -/
def pyFloat (s : String) : Option ℚ :=
  let cs := (pyStrip s).toList
  let sc : ℚ × List Char :=
    match cs with
    | '-' :: r => (-1, r)
    | '+' :: r => (1, r)
    | _ => (1, cs)
  let ip := takeDigits sc.2
  let fp : List ℕ × List Char :=
    match ip.2 with
    | '.' :: r => takeDigits r
    | _ => ([], ip.2)
  if ip.1.isEmpty ∧ fp.1.isEmpty then none
  else
    let mant : ℚ := (digitsVal ip.1 : ℚ) + (digitsVal fp.1 : ℚ) / ((10 : ℚ) ^ fp.1.length)
    match fp.2 with
    | [] => some (sc.1 * mant)
    | 'e' :: r =>
      let es : ℤ × List Char :=
        match r with
        | '-' :: r2 => (-1, r2)
        | '+' :: r2 => (1, r2)
        | _ => (1, r)
      let ed := takeDigits es.2
      if ed.1.isEmpty ∨ ¬ ed.2.isEmpty then none
      else some (sc.1 * mant * (10 : ℚ) ^ (es.1 * (digitsVal ed.1 : ℤ)))
    | 'E' :: r =>
      let es : ℤ × List Char :=
        match r with
        | '-' :: r2 => (-1, r2)
        | '+' :: r2 => (1, r2)
        | _ => (1, r)
      let ed := takeDigits es.2
      if ed.1.isEmpty ∨ ¬ ed.2.isEmpty then none
      else some (sc.1 * mant * (10 : ℚ) ^ (es.1 * (digitsVal ed.1 : ℤ)))
    | _ => none

/-- Decimal digits of the fractional part `r/d`, long division with fuel (the
values this pipeline renders have terminating expansions). -/
def fracDigits : ℕ → ℕ → ℕ → String
  | _, _, 0 => ""
  | r, d, fuel + 1 =>
    if r = 0 then ""
    else Nat.repr (r * 10 / d) ++ fracDigits (r * 10 % d) d fuel

/-- Python `str` of a float value idealised on `ℚ` (e.g. `10` renders `"10.0"`,
`31/2` renders `"15.5"`). -/
def renderRat (q : ℚ) : String :=
  let n := q.num.natAbs
  let d := q.den
  let frac := if n % d = 0 then "0" else fracDigits (n % d) d 30
  (if q < 0 then "-" else "") ++ Nat.repr (n / d) ++ "." ++ frac

/-- Python `str(value)` for the values a sensor reading can hold (line 130). -/
def pyStr : JVal → String
  | JVal.jnum q => renderRat q
  | JVal.jint n => Int.repr n
  | JVal.jstr s => s
  | JVal.jnull => "None"

/-- Python `value != 'N/A'`, negated: equality with the sentinel string holds
only for the string `"N/A"` itself (never for a number or `None`). -/
def pyEqNA : JVal → Bool
  | JVal.jstr s => s = "N/A"
  | _ => false

/-- Floor of a rational as an integer. -/
def ratFloor (q : ℚ) : ℤ := Int.fdiv q.num q.den

/-- Round to the nearest integer, ties to even (IEEE/Python rounding of `.2f`). -/
def roundHalfEven (q : ℚ) : ℤ :=
  let f := ratFloor q
  let r := q - (f : ℚ)
  if r < 1 / 2 then f
  else if 1 / 2 < r then f + 1
  else if f % 2 = 0 then f else f + 1

/-- `f"{x:.2f}"`: fixed two fractional digits, round half to even. -/
def formatFixed2 (q : ℚ) : String :=
  let n := roundHalfEven (q * 100)
  let m := n.natAbs
  (if n < 0 then "-" else "") ++ Nat.repr (m / 100) ++ "." ++
    (if m % 100 < 10 then "0" else "") ++ Nat.repr (m % 100)

/-- One station's dict `dati_stazione` (SensorLabel → raw value, plus the
`'Timestamp'` entry) paired with the growing label set. -/
def procSensori : List Sensore → List (String × JVal) → List String →
    List (String × JVal) × List String
  | [], dati, tipi => (dati, tipi)
  | s :: rest, dati, tipi =>
    if tipoOk s.tipoSens then
      procSensori rest (dictInsert (sensorLabel s) s.valore dati) (tipi ++ [sensorLabel s])
    else procSensori rest dati tipi

/-- `timestamp_formattato` (lines 78-84): parse-and-format the station's
timestamp, falling back to the poll's wall-clock string on a missing value or a
parse failure. -/
def timestampFormattato (isoParse : String → Option String) (now : String)
    (ts : Option String) : String :=
  match ts with
  | none => now
  | some s => (isoParse (replaceZ s)).getD now

/-- The extraction loop of lines 72-102 over the snapshot, accumulating
`dati_per_stazione` and `tipi_sensori_presenti` (the latter as a list whose
distinct elements are the set's). -/
def estraiAux (isoParse : String → Option String) (now : String) :
    List Stazione → List (String × List (String × JVal)) → List String →
    List (String × List (String × JVal)) × List String
  | [], dati, tipi => (dati, tipi)
  | st :: rest, dati, tipi =>
    match st.nome with
    | some nome =>
      if nome ∈ stazioniInteressate then
        let ts := timestampFormattato isoParse now st.lastUpdateTime
        let p := procSensori st.analog [("Timestamp", JVal.jstr ts)] tipi
        estraiAux isoParse now rest (dictInsert nome p.1 dati) p.2
      else estraiAux isoParse now rest dati tipi
    | none => estraiAux isoParse now rest dati tipi

/-- `dati_per_stazione` after the extraction loop. -/
def datiPerStazione (isoParse : String → Option String) (now : String)
    (snap : List Stazione) : List (String × List (String × JVal)) :=
  (estraiAux isoParse now snap [] []).1

/-- `tipi_sensori_presenti` after the extraction loop (as an occurrence list). -/
def tipiSensoriPresenti (isoParse : String → Option String) (now : String)
    (snap : List Stazione) : List String :=
  (estraiAux isoParse now snap [] []).2

/-- `nuova_intestazione` (lines 110-112): `Data_Ora` then the sorted label set. -/
def nuovaIntestazione (isoParse : String → Option String) (now : String)
    (snap : List Stazione) : List String :=
  "Data_Ora" :: sortStrings (pyDedup (tipiSensoriPresenti isoParse now snap))

/-- The value collection of lines 125-130 for one header label: stations in
catalog order, absent stations and absent readings skipped, a reading equal to
the `'N/A'` sentinel skipped, the rest `str`-ed. -/
def collectValues (dati : List (String × List (String × JVal))) (lab : String) :
    List String :=
  stazioniInteressate.filterMap (fun nome =>
    match lookupDict dati nome with
    | none => none
    | some d =>
      match lookupDict d lab with
      | none => none
      | some v => if pyEqNA v then none else some (pyStr v))

/-- The list comprehension `numeric_values = [float(v) for v in values]` of
line 136: all parsed values, or `none` when any `float` raises `ValueError`. -/
def floatList : List String → Option (List ℚ)
  | [] => some []
  | v :: vs =>
    match pyFloat v, floatList vs with
    | some q, some qs => some (q :: qs)
    | _, _ => none

/-- Lines 132-143: average when every value parses, first value on a parse
failure, `'N/A'` when nothing was collected. -/
def aggregateCell (values : List String) : String :=
  match values with
  | [] => "N/A"
  | v0 :: _ =>
    match floatList values with
    | some qs => formatFixed2 (qs.sum / (qs.length : ℚ))
    | none => v0

/-- `riga_dati` (lines 120-143): the poll timestamp then one aggregated cell per
non-timestamp header column. -/
def rigaDati (isoParse : String → Option String) (now : String)
    (snap : List Stazione) : List String :=
  now :: (nuovaIntestazione isoParse now snap).tail.map
    (fun lab => aggregateCell (collectValues (datiPerStazione isoParse now snap) lab))

/-- The persistence-relevant state: whether the CSV file exists, its rows, and
the in-memory `intestazione_attuale`. -/
structure FileState where
  fileExists : Bool
  file : List (List String)
  intestazione : List String
deriving DecidableEq

/-- `headers_changed` (lines 114-117): file absent or candidate header differs
from the current one. -/
def headersChanged (fileExists : Bool) (attuale nuova : List String) : Bool :=
  !fileExists || decide (nuova ≠ attuale)

/-- One poll cycle's effect on the persisted state (lines 104-159): skip when no
station of interest appeared; otherwise rewrite the file to header-plus-row when
the header changed (or no file exists), else append the row. -/
def runCycle (isoParse : String → Option String) (now : String)
    (snap : List Stazione) (st : FileState) : FileState :=
  let dati := datiPerStazione isoParse now snap
  if dati.isEmpty then st
  else
    let nuova := nuovaIntestazione isoParse now snap
    let riga := rigaDati isoParse now snap
    if headersChanged st.fileExists st.intestazione nuova then
      { fileExists := true, file := [nuova, riga], intestazione := nuova }
    else { st with file := st.file ++ [riga] }

/-! ### The scheduler loop: exception classes and dispatch

Model of lines 55-177: the inner `try` of lines 61-168 catches, in clause
order, `requests.exceptions.RequestException`, `json.JSONDecodeError` and
`Exception`; the outer `try` of lines 55-177 catches `KeyboardInterrupt` and
calls `sys.exit(0)`.  A Python `except C` clause fires iff the raised class is
`C` or a subclass, and the first firing clause wins. -/

/-- The slice of the Python exception hierarchy this program dispatches on:
`RequestException < IOError = OSError < Exception < BaseException`,
`JSONDecodeError < ValueError < Exception`, and `KeyboardInterrupt` directly
below `BaseException` (not below `Exception`). -/
inductive ExcClass where
  | baseException
  | exception
  | osError
  | requestException
  | valueError
  | jsonDecodeError
  | keyboardInterrupt
deriving DecidableEq

/-- The ancestor chain of a class, the class itself first. -/
def ancestors : ExcClass → List ExcClass
  | .baseException => [.baseException]
  | .exception => [.exception, .baseException]
  | .osError => [.osError, .exception, .baseException]
  | .requestException => [.requestException, .osError, .exception, .baseException]
  | .valueError => [.valueError, .exception, .baseException]
  | .jsonDecodeError => [.jsonDecodeError, .valueError, .exception, .baseException]
  | .keyboardInterrupt => [.keyboardInterrupt, .baseException]

def isSubclass (c d : ExcClass) : Bool := d ∈ ancestors c

/-- The `except` clauses of lines 163-168, in source order. -/
def innerHandlers : List ExcClass :=
  [.requestException, .jsonDecodeError, .exception]

/-- The `except` clause of line 175. -/
def outerHandlers : List ExcClass := [.keyboardInterrupt]

/-- The first `except` clause matching a raised class, Python dispatch order. -/
def firstHandler (handlers : List ExcClass) (e : ExcClass) : Option ExcClass :=
  handlers.find? (fun h => isSubclass e h)

/-- What one cycle body did: returned normally with a new persisted state, or
raised an exception of the given class. -/
inductive CycleOutcome where
  | ok (st : FileState)
  | raised (e : ExcClass)
deriving DecidableEq

/-- How one scheduler-loop iteration ends. -/
inductive LoopResult where
  | continueLoop (st : FileState)
  | exitProcess (code : ℕ)
  | crash (e : ExcClass)
deriving DecidableEq

/-- One iteration of the loop of lines 55-177: an exception caught by an inner
clause is logged and the loop continues with the pre-cycle state (the cycle is
abandoned, no retry); one caught only by the outer `except KeyboardInterrupt`
reaches `sys.exit(0)`; anything else would propagate. -/
def loopStep (st : FileState) : CycleOutcome → LoopResult
  | .ok st' => .continueLoop st'
  | .raised e =>
    match firstHandler innerHandlers e with
    | some _ => .continueLoop st
    | none =>
      match firstHandler outerHandlers e with
      | some _ => .exitProcess 0
      | none => .crash e

/-! ### Helper lemmas -/

theorem lookup_dictInsert_self {α : Type} (k : String) (v : α) :
    ∀ l : List (String × α), lookupDict (dictInsert k v l) k = some v
  | [] => by simp [dictInsert, lookupDict]
  | (k', v') :: rest => by
    by_cases h : k' = k
    · simp [dictInsert, h, lookupDict]
    · simp [dictInsert, h, lookupDict, lookup_dictInsert_self k v rest]

theorem lookup_dictInsert_ne {α : Type} (k' k : String) (v : α) (h : k' ≠ k) :
    ∀ l : List (String × α), lookupDict (dictInsert k' v l) k = lookupDict l k
  | [] => by simp [dictInsert, lookupDict, h]
  | (k0, v0) :: rest => by
    by_cases h0 : k0 = k'
    · simp [dictInsert, h0, lookupDict, h]
    · simp only [dictInsert, h0, if_false, lookupDict]
      by_cases h1 : k0 = k
      · simp [h1]
      · simp [h1, lookup_dictInsert_ne k' k v h rest]

theorem mem_dictInsert {α : Type} (p : String × α) (k : String) (v : α) :
    ∀ l : List (String × α), p ∈ dictInsert k v l → p = (k, v) ∨ p ∈ l
  | [] => by simp [dictInsert]
  | (k0, v0) :: rest => by
    by_cases h0 : k0 = k <;> simp only [dictInsert, h0, if_true, if_false]
    · intro h
      rcases List.mem_cons.mp h with h | h
      · exact Or.inl h
      · exact Or.inr (List.mem_cons_of_mem _ h)
    · intro h
      rcases List.mem_cons.mp h with h | h
      · exact Or.inr (h ▸ List.mem_cons_self _ _)
      · rcases mem_dictInsert p k v rest h with h | h
        · exact Or.inl h
        · exact Or.inr (List.mem_cons_of_mem _ h)

theorem headersChanged_eq_false_iff (fe : Bool) (att nu : List String) :
    headersChanged fe att nu = false ↔ fe = true ∧ nu = att := by
  cases fe <;> simp [headersChanged]

theorem headersChanged_eq_true_of (fe : Bool) (att nu : List String)
    (h : fe = false ∨ nu ≠ att) : headersChanged fe att nu = true := by
  rcases h with h | h <;> simp [headersChanged, h]

theorem rigaDati_length (iso : String → Option String) (now : String)
    (snap : List Stazione) :
    (rigaDati iso now snap).length = (nuovaIntestazione iso now snap).length := by
  simp [rigaDati, nuovaIntestazione]

theorem runCycle_skip_eq (iso : String → Option String) (now : String)
    (snap : List Stazione) (st : FileState)
    (h : datiPerStazione iso now snap = []) :
    runCycle iso now snap st = st := by
  simp [runCycle, h]

theorem datiPerStazione_isEmpty_false (iso : String → Option String) (now : String)
    (snap : List Stazione) (h : datiPerStazione iso now snap ≠ []) :
    (datiPerStazione iso now snap).isEmpty = false := by
  cases hh : datiPerStazione iso now snap with
  | nil => exact absurd hh h
  | cons a l => rfl

theorem runCycle_rewrite_eq (iso : String → Option String) (now : String)
    (snap : List Stazione) (st : FileState)
    (hne : datiPerStazione iso now snap ≠ [])
    (hch : headersChanged st.fileExists st.intestazione (nuovaIntestazione iso now snap)
      = true) :
    runCycle iso now snap st =
      { fileExists := true,
        file := [nuovaIntestazione iso now snap, rigaDati iso now snap],
        intestazione := nuovaIntestazione iso now snap } := by
  simp [runCycle, datiPerStazione_isEmpty_false iso now snap hne, hch]

theorem runCycle_append_eq (iso : String → Option String) (now : String)
    (snap : List Stazione) (st : FileState)
    (hne : datiPerStazione iso now snap ≠ [])
    (hch : headersChanged st.fileExists st.intestazione (nuovaIntestazione iso now snap)
      = false) :
    runCycle iso now snap st = { st with file := st.file ++ [rigaDati iso now snap] } := by
  simp [runCycle, datiPerStazione_isEmpty_false iso now snap hne, hch]

theorem estraiAux_const (iso : String → Option String) (now : String)
    (snap : List Stazione) :
    ∀ dati tipi, (∀ s ∈ snap, ∀ n ∈ stazioniInteressate, s.nome ≠ some n) →
    estraiAux iso now snap dati tipi = (dati, tipi) := by
  induction snap with
  | nil => intro dati tipi _; rfl
  | cons stz rest ih =>
    intro dati tipi h
    have hrest : ∀ s ∈ rest, ∀ n ∈ stazioniInteressate, s.nome ≠ some n :=
      fun s hs => h s (List.mem_cons_of_mem _ hs)
    cases hn : stz.nome with
    | none => simpa [estraiAux, hn] using ih dati tipi hrest
    | some n =>
      have hni : n ∉ stazioniInteressate := fun hmem =>
        h stz (List.mem_cons_self _ _) n hmem hn
      simpa [estraiAux, hn, hni] using ih dati tipi hrest

/-- Every entry of the dict built by `procSensori` either was there already or
is the label-value pair of a qualifying sensor of the processed list. -/
theorem procSensori_pres (P : String × JVal → Prop) :
    ∀ (analog : List Sensore) dati tipi, (∀ p ∈ dati, P p) →
    (∀ s ∈ analog, tipoOk s.tipoSens = true → P (sensorLabel s, s.valore)) →
    ∀ p ∈ (procSensori analog dati tipi).1, P p := by
  intro analog
  induction analog with
  | nil => intro dati tipi hd _ p hp; exact hd p hp
  | cons s rest ih =>
    intro dati tipi hd hs p hp
    by_cases ht : tipoOk s.tipoSens = true
    · rw [procSensori, if_pos ht] at hp
      refine ih _ _ ?_ (fun s' hs' => hs s' (List.mem_cons_of_mem _ hs')) p hp
      intro q hq
      rcases mem_dictInsert q _ _ _ hq with h | h
      · exact h ▸ hs s (List.mem_cons_self _ _) ht
      · exact hd q h
    · rw [procSensori, if_neg ht] at hp
      exact ih _ _ hd (fun s' hs' => hs s' (List.mem_cons_of_mem _ hs')) p hp

/-- Every entry of `dati_per_stazione` after the extraction loop either was in
the accumulator or is a catalog station name paired with the station dict the
loop builds for it. -/
theorem estraiAux_pres (iso : String → Option String) (now : String)
    (P : String × List (String × JVal) → Prop) :
    ∀ (snap : List Stazione) dati tipi, (∀ q ∈ dati, P q) →
    (∀ stz ∈ snap, ∀ nome, stz.nome = some nome → nome ∈ stazioniInteressate →
      ∀ tipi0, P (nome, (procSensori stz.analog
        [("Timestamp", JVal.jstr (timestampFormattato iso now stz.lastUpdateTime))]
        tipi0).1)) →
    ∀ q ∈ (estraiAux iso now snap dati tipi).1, P q := by
  intro snap
  induction snap with
  | nil => intro dati tipi hd _ q hq; exact hd q hq
  | cons stz rest ih =>
    intro dati tipi hd hs q hq
    have hrest : ∀ stz' ∈ rest, ∀ nome, stz'.nome = some nome →
        nome ∈ stazioniInteressate → ∀ tipi0, P (nome, (procSensori stz'.analog
          [("Timestamp", JVal.jstr (timestampFormattato iso now stz'.lastUpdateTime))]
          tipi0).1) :=
      fun s' h' => hs s' (List.mem_cons_of_mem _ h')
    cases hn : stz.nome with
    | none =>
      simp only [estraiAux, hn] at hq
      exact ih _ _ hd hrest q hq
    | some n =>
      simp only [estraiAux, hn] at hq
      by_cases hmem : n ∈ stazioniInteressate
      · rw [if_pos hmem] at hq
        refine ih _ _ ?_ hrest q hq
        intro r hr
        rcases mem_dictInsert r _ _ _ hr with h | h
        · exact h ▸ hs stz (List.mem_cons_self _ _) n hn hmem _
        · exact hd r h
      · rw [if_neg hmem] at hq
        exact ih _ _ hd hrest q hq

theorem estraiAux_append (iso : String → Option String) (now : String) :
    ∀ (a b : List Stazione) dati tipi,
    estraiAux iso now (a ++ b) dati tipi =
      estraiAux iso now b (estraiAux iso now a dati tipi).1
        (estraiAux iso now a dati tipi).2 := by
  intro a
  induction a with
  | nil => intro b dati tipi; rfl
  | cons stz rest ih =>
    intro b dati tipi
    cases hn : stz.nome with
    | none => simp [estraiAux, hn, ih]
    | some n =>
      by_cases hmem : n ∈ stazioniInteressate <;> simp [estraiAux, hn, hmem, ih]

/-- Stations whose name is not `n` never touch the binding of `n`. -/
theorem estraiAux_lookup_absent (iso : String → Option String) (now : String)
    (n : String) :
    ∀ (snap : List Stazione) dati tipi, (∀ s ∈ snap, s.nome ≠ some n) →
    lookupDict (estraiAux iso now snap dati tipi).1 n = lookupDict dati n := by
  intro snap
  induction snap with
  | nil => intro dati tipi _; rfl
  | cons stz rest ih =>
    intro dati tipi h
    have hrest : ∀ s ∈ rest, s.nome ≠ some n := fun s hs => h s (List.mem_cons_of_mem _ hs)
    cases hn : stz.nome with
    | none => simp only [estraiAux, hn]; exact ih _ _ hrest
    | some m =>
      have hm : m ≠ n := fun he => h stz (List.mem_cons_self _ _) (he ▸ hn)
      simp only [estraiAux, hn]
      by_cases hmem : m ∈ stazioniInteressate
      · rw [if_pos hmem, ih _ _ hrest, lookup_dictInsert_ne m n _ hm]
      · rw [if_neg hmem]; exact ih _ _ hrest

/-- A sensor label always ends in a closing parenthesis, so it never collides
with the fixed key `"Timestamp"`. -/
theorem sensorLabel_ne_timestamp (s : Sensore) : sensorLabel s ≠ "Timestamp" := by
  intro h
  have hd := congrArg (fun t => t.data.getLast?) h
  simp only [sensorLabel, chiaveSensore] at hd
  rw [show ((descrSensore s.descr ++ " (" ++ unitaMisura s.unmis ++ ")").data
      = ((descrSensore s.descr).data ++ " (".data ++ (unitaMisura s.unmis).data)
        ++ [')']) from rfl] at hd
  rw [List.getLast?_concat] at hd
  simp at hd

/-- Processing sensors never changes the `'Timestamp'` binding of the station
dict. -/
theorem procSensori_lookup_timestamp :
    ∀ (analog : List Sensore) dati tipi,
    lookupDict (procSensori analog dati tipi).1 "Timestamp" =
      lookupDict dati "Timestamp" := by
  intro analog
  induction analog with
  | nil => intro dati tipi; rfl
  | cons s rest ih =>
    intro dati tipi
    by_cases ht : tipoOk s.tipoSens = true
    · rw [procSensori, if_pos ht, ih,
        lookup_dictInsert_ne _ _ _ (sensorLabel_ne_timestamp s)]
    · rw [procSensori, if_neg ht, ih]

/-- A single unparsable element makes the whole comprehension of line 136 raise
`ValueError`. -/
theorem floatList_none (x : String) :
    ∀ xs : List String, x ∈ xs → pyFloat x = none → floatList xs = none := by
  intro xs
  induction xs with
  | nil => intro h; exact absurd h (List.not_mem_nil x)
  | cons y ys ih =>
    intro hmem hx
    rcases List.mem_cons.mp hmem with h | h
    · subst h
      simp [floatList, hx]
    · cases hy : pyFloat y <;> simp [floatList, hy, ih h hx]

/-! ### Concrete sample data for closed instances -/

/-- An iso-format parser that always fails (every cycle then uses the
wall-clock fallback); any function of this type models the library parser. -/
def isoNone : String → Option String := fun _ => none

/-- A temperature reading as the API would deliver it. -/
def sensTemp (q : ℚ) : Sensore := ⟨some 1, some "Temperatura", JVal.jnum q, some "°C"⟩

/-- A snapshot with two catalog stations reporting the same label. -/
def snapMB : List Stazione :=
  [⟨some "Misa", some "2024-01-01T00:00:00Z", [sensTemp (31 / 2)]⟩,
   ⟨some "Barbara", none, [sensTemp (35 / 2)]⟩]

/-- The startup state when no CSV file exists. -/
def st0 : FileState := ⟨false, [], []⟩

/-- A state persisted by an earlier schema. -/
def stX : FileState :=
  ⟨true, [["Data_Ora", "X (u)"], ["t0", "1.0"]], ["Data_Ora", "X (u)"]⟩

/-! ### The claims -/

/-- C1: a poll cycle whose candidate header differs from the stored header, or
that runs when no file exists, rewrites the persisted file to exactly one
header row (the candidate header) and exactly one data row; all prior rows are
discarded. -/
theorem schema_change_truncates_history (iso : String → Option String) (now : String)
    (snap : List Stazione) (st : FileState)
    (hne : datiPerStazione iso now snap ≠ [])
    (hch : st.fileExists = false ∨ nuovaIntestazione iso now snap ≠ st.intestazione) :
    runCycle iso now snap st =
      { fileExists := true,
        file := [nuovaIntestazione iso now snap, rigaDati iso now snap],
        intestazione := nuovaIntestazione iso now snap } :=
  runCycle_rewrite_eq iso now snap st hne (headersChanged_eq_true_of _ _ _ hch)

theorem schema_change_truncates_history_w :
    datiPerStazione isoNone "01/01/2024 00:00" snapMB ≠ [] ∧
    runCycle isoNone "01/01/2024 00:00" snapMB stX =
      { fileExists := true,
        file := [["Data_Ora", "Temperatura (°C)"], ["01/01/2024 00:00", "16.50"]],
        intestazione := ["Data_Ora", "Temperatura (°C)"] } := by
  constructor
  · with_unfolding_all decide
  · rw [schema_change_truncates_history isoNone "01/01/2024 00:00" snapMB stX
      (by with_unfolding_all decide) (Or.inr (by with_unfolding_all decide))]
    with_unfolding_all rfl

/-- C2 as stated is false on the code: a snapshot in which a catalog station
appears but reports no qualifying reading has an empty SensorLabel union, yet
the cycle is not skipped — the candidate header degenerates to the lone
timestamp column, the header decision runs, and the file is rewritten. -/
theorem empty_label_union_still_writes :
    tipiSensoriPresenti isoNone "t" [⟨some "Misa", none, []⟩] = [] ∧
    runCycle isoNone "t" [⟨some "Misa", none, []⟩] stX =
      { fileExists := true, file := [["Data_Ora"], ["t"]],
        intestazione := ["Data_Ora"] } ∧
    runCycle isoNone "t" [⟨some "Misa", none, []⟩] stX ≠ stX := by
  refine ⟨by with_unfolding_all rfl, by with_unfolding_all rfl, ?_⟩
  with_unfolding_all decide

/-- C2 amended: the cycle leaves the persisted file untouched (no row, no
header decision) exactly in the narrower case in which no station of the
catalog appears in the snapshot at all; a catalog station that appears with no
qualifying reading still triggers a header decision and a write. -/
theorem empty_cycle_skip (iso : String → Option String) (now : String)
    (snap : List Stazione) (st : FileState)
    (h : ∀ s ∈ snap, ∀ n ∈ stazioniInteressate, s.nome ≠ some n) :
    runCycle iso now snap st = st := by
  apply runCycle_skip_eq
  unfold datiPerStazione
  rw [estraiAux_const iso now snap [] [] h]

theorem empty_cycle_skip_w :
    runCycle isoNone "t" [⟨some "Altrove", none, []⟩, ⟨none, some "x", []⟩] stX = stX :=
  empty_cycle_skip isoNone "t" _ stX (by with_unfolding_all decide)

/-- C5 as stated is false on the code: the label is the stated formula, but
label equality does not force equal trimmed descriptions and units — two
readings with different trimmed descriptions (and units) can collide on the
same label because the formula is not injective. -/
theorem sensorLabel_collision :
    sensorLabel ⟨some 0, some "a (b)", JVal.jnull, some "c"⟩ =
      sensorLabel ⟨some 0, some "a", JVal.jnull, some "b) (c"⟩ ∧
    descrSensore (some "a (b)") ≠ descrSensore (some "a") ∧
    unitaMisura (some "c") ≠ unitaMisura (some "b) (c") := by
  refine ⟨by with_unfolding_all rfl, ?_, ?_⟩ <;> with_unfolding_all decide

/-- C5 amended: the label is the string built from the trimmed description and
the trimmed unit in the stated format, and readings with identical trimmed
description and identical trimmed unit always produce the same label, whatever
the station; but the converse fails (see the collision), so label equality is
equivalent to equality of the built strings, not of the pairs. -/
theorem sensorLabel_formula_determinism (s1 s2 : Sensore)
    (hd : descrSensore s1.descr = descrSensore s2.descr)
    (hu : unitaMisura s1.unmis = unitaMisura s2.unmis) :
    sensorLabel s1 = chiaveSensore (descrSensore s1.descr) (unitaMisura s1.unmis) ∧
    sensorLabel s1 = sensorLabel s2 := by
  refine ⟨rfl, ?_⟩
  unfold sensorLabel
  rw [hd, hu]

theorem sensorLabel_formula_determinism_w :
    descrSensore (some " T ") = descrSensore (some "T") ∧
    sensorLabel ⟨some 0, some " T ", JVal.jnull, some "u"⟩ =
      sensorLabel ⟨some 1, some "T", JVal.jnum 5, some " u "⟩ :=
  ⟨by with_unfolding_all rfl,
    (sensorLabel_formula_determinism ⟨some 0, some " T ", JVal.jnull, some "u"⟩
      ⟨some 1, some "T", JVal.jnum 5, some " u "⟩
      (by with_unfolding_all rfl) (by with_unfolding_all rfl)).2⟩

/-- The shape a well-formed persisted file keeps: when the file exists, its
first row is the current header and every later (data) row has exactly as many
fields as that header. -/
def FileInv (st : FileState) : Prop :=
  st.fileExists = true →
    ∃ rows, st.file = st.intestazione :: rows ∧
      ∀ r ∈ rows, r.length = st.intestazione.length

/-- C6: every poll cycle preserves the persisted-table invariant — after a
cycle that writes (rewrite or append), every data row of the file has exactly
as many fields as the current header row. -/
theorem cycle_preserves_row_width (iso : String → Option String) (now : String)
    (snap : List Stazione) (st : FileState) (h : FileInv st) :
    FileInv (runCycle iso now snap st) := by
  by_cases hne : datiPerStazione iso now snap = []
  · rw [runCycle_skip_eq iso now snap st hne]; exact h
  · cases hch : headersChanged st.fileExists st.intestazione
        (nuovaIntestazione iso now snap) with
    | true =>
      rw [runCycle_rewrite_eq iso now snap st hne hch]
      intro _
      refine ⟨[rigaDati iso now snap], rfl, ?_⟩
      intro r hr
      rw [List.mem_singleton] at hr
      subst hr
      exact rigaDati_length iso now snap
    | false =>
      rw [runCycle_append_eq iso now snap st hne hch]
      obtain ⟨hfe, heq⟩ := (headersChanged_eq_false_iff _ _ _).mp hch
      obtain ⟨rows, hfile, hlen⟩ := h hfe
      intro _
      refine ⟨rows ++ [rigaDati iso now snap], by simp [hfile], ?_⟩
      intro r hr
      rcases List.mem_append.mp hr with h1 | h1
      · exact hlen r h1
      · rw [List.mem_singleton] at h1
        subst h1
        rw [rigaDati_length iso now snap, heq]

theorem cycle_preserves_row_width_w :
    FileInv st0 ∧ FileInv (runCycle isoNone "t" snapMB st0) :=
  ⟨fun h => Bool.noConfusion h,
    cycle_preserves_row_width isoNone "t" snapMB st0 (fun h => Bool.noConfusion h)⟩

/-- C7: a cycle whose candidate header equals the stored header appends exactly
one data row and leaves the header and all earlier rows unchanged; hence, from
a no-file start, two consecutive cycles producing the same header H yield a
file of exactly one header row and two data rows, each of H-many fields. -/
theorem same_header_appends (iso : String → Option String) :
    (∀ now snap st, st.fileExists = true →
      nuovaIntestazione iso now snap = st.intestazione →
      datiPerStazione iso now snap ≠ [] →
      runCycle iso now snap st = { st with file := st.file ++ [rigaDati iso now snap] })
    ∧ (∀ now1 snap1 now2 snap2 (start : FileState), start.fileExists = false →
      datiPerStazione iso now1 snap1 ≠ [] →
      datiPerStazione iso now2 snap2 ≠ [] →
      nuovaIntestazione iso now2 snap2 = nuovaIntestazione iso now1 snap1 →
      (runCycle iso now2 snap2 (runCycle iso now1 snap1 start)).file =
        [nuovaIntestazione iso now1 snap1, rigaDati iso now1 snap1,
          rigaDati iso now2 snap2] ∧
      (rigaDati iso now1 snap1).length = (nuovaIntestazione iso now1 snap1).length ∧
      (rigaDati iso now2 snap2).length = (nuovaIntestazione iso now1 snap1).length) := by
  constructor
  · intro now snap st hfe hsame hne
    apply runCycle_append_eq iso now snap st hne
    rw [headersChanged_eq_false_iff]
    exact ⟨hfe, hsame⟩
  · intro now1 snap1 now2 snap2 start hfe h1 h2 h12
    rw [runCycle_rewrite_eq iso now1 snap1 start h1
      (headersChanged_eq_true_of _ _ _ (Or.inl hfe))]
    rw [runCycle_append_eq iso now2 snap2 _ h2
      (by rw [headersChanged_eq_false_iff]; exact ⟨rfl, h12⟩)]
    refine ⟨rfl, rigaDati_length iso now1 snap1, ?_⟩
    rw [rigaDati_length iso now2 snap2, h12]

theorem same_header_appends_w :
    nuovaIntestazione isoNone "t2" snapMB = nuovaIntestazione isoNone "t1" snapMB ∧
    (runCycle isoNone "t2" snapMB (runCycle isoNone "t1" snapMB st0)).file =
      [["Data_Ora", "Temperatura (°C)"], ["t1", "16.50"], ["t2", "16.50"]] := by
  have h := (same_header_appends isoNone).2 "t1" snapMB "t2" snapMB st0
    (by with_unfolding_all rfl) (by with_unfolding_all decide)
    (by with_unfolding_all decide) (by with_unfolding_all rfl)
  refine ⟨by with_unfolding_all rfl, ?_⟩
  rw [h.1]
  with_unfolding_all rfl

/-- C9: every transport, format or filesystem error raised inside a poll cycle
is caught by an inner handler and the loop continues with the cycle abandoned
(more generally, any raised class below `Exception` is caught); the interrupt
is the only modelled condition reaching process exit, and it exits with code
0. -/
theorem loop_error_tolerance (st : FileState) :
    (∀ e : ExcClass, isSubclass e ExcClass.exception = true →
      loopStep st (CycleOutcome.raised e) = LoopResult.continueLoop st) ∧
    loopStep st (CycleOutcome.raised ExcClass.requestException) =
      LoopResult.continueLoop st ∧
    loopStep st (CycleOutcome.raised ExcClass.jsonDecodeError) =
      LoopResult.continueLoop st ∧
    loopStep st (CycleOutcome.raised ExcClass.osError) = LoopResult.continueLoop st ∧
    loopStep st (CycleOutcome.raised ExcClass.keyboardInterrupt) =
      LoopResult.exitProcess 0 := by
  refine ⟨?_, rfl, rfl, rfl, rfl⟩
  intro e he
  cases e
  · exact absurd he (by decide)
  · rfl
  · rfl
  · rfl
  · rfl
  · rfl
  · exact absurd he (by decide)

theorem loop_error_tolerance_w :
    isSubclass ExcClass.osError ExcClass.exception = true ∧
    loopStep st0 (CycleOutcome.raised ExcClass.osError) = LoopResult.continueLoop st0 :=
  ⟨by decide, (loop_error_tolerance st0).1 ExcClass.osError (by decide)⟩

/-- Per-station collected readings for the averaging examples. -/
def dati3 : List (String × List (String × JVal)) :=
  [("Misa", [("Timestamp", JVal.jstr "t"), ("L (u)", JVal.jnum 10)]),
   ("Nevola", [("Timestamp", JVal.jstr "t"), ("L (u)", JVal.jnum 20)]),
   ("Barbara", [("Timestamp", JVal.jstr "t"), ("L (u)", JVal.jnum 30)])]

/-- One numeric and one non-numeric reading for the same label. -/
def datiMix : List (String × List (String × JVal)) :=
  [("Misa", [("Timestamp", JVal.jstr "t"), ("L (u)", JVal.jnum 10)]),
   ("Nevola", [("Timestamp", JVal.jstr "t"), ("L (u)", JVal.jstr "abc")])]

/-- C3: for every label with a non-empty collected value list, the output cell
is the arithmetic mean formatted to two decimals when every collected value
parses as a decimal number, and the first collected value verbatim (no error)
when any value fails to parse. -/
theorem aggregation_mean_or_first (dati : List (String × List (String × JVal)))
    (lab : String) (hne : collectValues dati lab ≠ []) :
    (∀ qs : List ℚ, floatList (collectValues dati lab) = some qs →
      aggregateCell (collectValues dati lab) = formatFixed2 (qs.sum / (qs.length : ℚ)))
    ∧ (floatList (collectValues dati lab) = none →
      aggregateCell (collectValues dati lab) = (collectValues dati lab).headI) := by
  obtain ⟨v0, rest, hvs⟩ : ∃ v0 rest, collectValues dati lab = v0 :: rest := by
    cases h : collectValues dati lab with
    | nil => exact absurd h hne
    | cons a l => exact ⟨a, l, rfl⟩
  rw [hvs]
  constructor
  · intro qs h
    simp [aggregateCell, h]
  · intro h
    simp [aggregateCell, h]

theorem aggregation_mean_or_first_w :
    aggregateCell (collectValues dati3 "L (u)") = "20.00" ∧
    aggregateCell (collectValues datiMix "L (u)") = "10.0" := by
  constructor
  · rw [(aggregation_mean_or_first dati3 "L (u)" (by with_unfolding_all decide)).1
      [10, 20, 30] (by with_unfolding_all rfl)]
    with_unfolding_all rfl
  · rw [(aggregation_mean_or_first datiMix "L (u)" (by with_unfolding_all decide)).2
      (by with_unfolding_all rfl)]
    with_unfolding_all rfl

/-- C4: the extractor output holds no station outside the catalog list, and
every recorded reading other than the fixed timestamp entry originates from a
snapshot sensor whose type code is in the catalog set (off-catalog stations
and readings are dropped, never an error). -/
theorem extractor_filters_catalog (iso : String → Option String) (now : String)
    (snap : List Stazione) :
    ∀ q ∈ datiPerStazione iso now snap,
      q.1 ∈ stazioniInteressate ∧
      ∀ p ∈ q.2, p.1 ≠ "Timestamp" →
        ∃ stz ∈ snap, ∃ s ∈ stz.analog, tipoOk s.tipoSens = true ∧
          p.1 = sensorLabel s ∧ p.2 = s.valore := by
  intro q hq
  refine estraiAux_pres iso now
    (fun q => q.1 ∈ stazioniInteressate ∧
      ∀ p ∈ q.2, p.1 ≠ "Timestamp" →
        ∃ stz ∈ snap, ∃ s ∈ stz.analog, tipoOk s.tipoSens = true ∧
          p.1 = sensorLabel s ∧ p.2 = s.valore)
    snap [] [] (by simp) ?_ q hq
  intro stz hstz nome hn hmem tipi0
  refine ⟨hmem, ?_⟩
  intro p hp hpt
  have hgood := procSensori_pres
    (fun p => p.1 = "Timestamp" ∨
      ∃ s ∈ stz.analog, tipoOk s.tipoSens = true ∧ p.1 = sensorLabel s ∧ p.2 = s.valore)
    stz.analog
    [("Timestamp", JVal.jstr (timestampFormattato iso now stz.lastUpdateTime))] tipi0
    (by intro r hr; rw [List.mem_singleton] at hr; exact Or.inl (by rw [hr]))
    (fun s hs ht => Or.inr ⟨s, hs, ht, rfl, rfl⟩) p hp
  rcases hgood with h | ⟨s, hs, ht, h1, h2⟩
  · exact absurd h hpt
  · exact ⟨stz, hstz, s, hs, ht, h1, h2⟩

theorem extractor_filters_catalog_w :
    ("Misa", [("Timestamp", JVal.jstr "t"), ("Temperatura (°C)", JVal.jnum (31 / 2))]) ∈
      datiPerStazione isoNone "t" snapMB ∧
    "Misa" ∈ stazioniInteressate := by
  have hmem : ("Misa",
      [("Timestamp", JVal.jstr "t"), ("Temperatura (°C)", JVal.jnum (31 / 2))]) ∈
      datiPerStazione isoNone "t" snapMB := by with_unfolding_all decide
  exact ⟨hmem, (extractor_filters_catalog isoNone "t" snapMB _ hmem).1⟩

/-- C8: a catalog station record whose `lastUpdateTime` is missing (or null,
both reaching the handler) or fails iso parsing still yields its station
snapshot, and that snapshot carries the current wall-clock string as its
timestamp; no parse error leaves the extractor. -/
theorem timestamp_parse_fallback (iso : String → Option String) (now : String)
    (pre post : List Stazione) (stz : Stazione) (n : String)
    (hn : stz.nome = some n) (hcat : n ∈ stazioniInteressate)
    (hlast : ∀ s ∈ post, s.nome ≠ some n)
    (hts : stz.lastUpdateTime = none ∨
      ∃ ts, stz.lastUpdateTime = some ts ∧ iso (replaceZ ts) = none) :
    ∃ d, lookupDict (datiPerStazione iso now (pre ++ stz :: post)) n = some d ∧
      lookupDict d "Timestamp" = some (JVal.jstr now) := by
  have hfmt : timestampFormattato iso now stz.lastUpdateTime = now := by
    rcases hts with h | ⟨ts, h1, h2⟩
    · simp [timestampFormattato, h]
    · simp [timestampFormattato, h1, h2]
  unfold datiPerStazione
  rw [estraiAux_append]
  simp only [estraiAux, hn]
  rw [if_pos hcat, hfmt]
  rw [estraiAux_lookup_absent iso now n post _ _ hlast]
  rw [lookup_dictInsert_self]
  refine ⟨_, rfl, ?_⟩
  rw [procSensori_lookup_timestamp]
  rfl

theorem timestamp_parse_fallback_w :
    ∃ d, lookupDict (datiPerStazione isoNone "now" [⟨some "Misa", none, []⟩]) "Misa"
        = some d ∧
      lookupDict d "Timestamp" = some (JVal.jstr "now") :=
  timestamp_parse_fallback isoNone "now" [] [] ⟨some "Misa", none, []⟩ "Misa" rfl
    (by decide) (by simp) (Or.inl rfl)

theorem pyFloat_None : pyFloat "None" = none := by with_unfolding_all rfl

/-- A station snapshot mapping one label to a null reading. -/
def datiNull : List (String × List (String × JVal)) :=
  [("Misa", [("Timestamp", JVal.jstr "t"), ("L (u)", JVal.jnull)])]

/-- A numeric reading and a null reading for the same label. -/
def datiNullMix : List (String × List (String × JVal)) :=
  [("Misa", [("Timestamp", JVal.jstr "t"), ("L (u)", JVal.jnum 10)]),
   ("Nevola", [("Timestamp", JVal.jstr "t"), ("L (u)", JVal.jnull)])]

/-- C10: null readings are recorded, not skipped: the sentinel test fires only
for the exact string; a qualifying null is stored under its label and collected
as the string Python renders for None, which does not parse as a decimal, so a
label reported only as null produces that string as its cell (not the
sentinel), and a null among numeric readings makes parsing fail and forces the
first-collected-value fallback. -/
theorem null_reading_not_sentinel :
    (∀ v : JVal, pyEqNA v = true ↔ v = JVal.jstr "N/A") ∧
    pyStr JVal.jnull = "None" ∧
    pyFloat "None" = none ∧
    (∀ s : Sensore, ∀ dati tipi, tipoOk s.tipoSens = true →
      lookupDict (procSensori [s] dati tipi).1 (sensorLabel s) = some s.valore) ∧
    (∀ dati nome d lab, lookupDict dati nome = some d → nome ∈ stazioniInteressate →
      lookupDict d lab = some JVal.jnull → "None" ∈ collectValues dati lab) ∧
    (∀ dati lab, collectValues dati lab ≠ [] →
      (∀ v ∈ collectValues dati lab, v = "None") →
      aggregateCell (collectValues dati lab) = "None") ∧
    (∀ dati lab v0 rest, collectValues dati lab = v0 :: rest →
      "None" ∈ collectValues dati lab → aggregateCell (collectValues dati lab) = v0) := by
  refine ⟨?_, rfl, pyFloat_None, ?_, ?_, ?_, ?_⟩
  · intro v
    cases v <;> simp [pyEqNA]
  · intro s dati tipi ht
    rw [procSensori, if_pos ht]
    exact lookup_dictInsert_self _ _ _
  · intro dati nome d lab h1 h2 h3
    simp only [collectValues, List.mem_filterMap]
    exact ⟨nome, h2, by simp [h1, h3, pyEqNA, pyStr]⟩
  · intro dati lab hne hall
    obtain ⟨v0, rest, hvs⟩ : ∃ v0 rest, collectValues dati lab = v0 :: rest := by
      cases h : collectValues dati lab with
      | nil => exact absurd h hne
      | cons a l => exact ⟨a, l, rfl⟩
    have h0 : v0 = "None" := hall v0 (hvs ▸ List.mem_cons_self v0 rest)
    subst h0
    have hfl : floatList (collectValues dati lab) = none :=
      floatList_none "None" _ (hvs ▸ List.mem_cons_self _ rest) pyFloat_None
    rw [hvs] at hfl
    rw [hvs]
    simp [aggregateCell, hfl]
  · intro dati lab v0 rest hvs hmem
    have hfl : floatList (collectValues dati lab) = none :=
      floatList_none "None" _ hmem pyFloat_None
    rw [hvs] at hfl
    rw [hvs]
    simp [aggregateCell, hfl]

theorem null_reading_not_sentinel_w :
    "None" ∈ collectValues datiNull "L (u)" ∧
    aggregateCell (collectValues datiNull "L (u)") = "None" ∧
    aggregateCell (collectValues datiNullMix "L (u)") = "10.0" := by
  refine ⟨?_, ?_, ?_⟩
  · exact null_reading_not_sentinel.2.2.2.2.1 datiNull "Misa"
      [("Timestamp", JVal.jstr "t"), ("L (u)", JVal.jnull)] "L (u)"
      (by with_unfolding_all rfl) (by decide) (by with_unfolding_all rfl)
  · exact null_reading_not_sentinel.2.2.2.2.2.1 datiNull "L (u)"
      (by with_unfolding_all decide) (by with_unfolding_all decide)
  · exact null_reading_not_sentinel.2.2.2.2.2.2 datiNullMix "L (u)" "10.0" ["None"]
      (by with_unfolding_all rfl) (by with_unfolding_all decide)
